import Mathlib

/-!
# Verification of the `flow` experiment driver and tlLogic importer

This file is a shallow embedding, in Lean 4, of the parts of the
`mit-wu-lab/flow` repository that the specification's claims are about:

* `flow/core/experiment.py`, class `Experiment`, method `run`
  (the experiment driver: per-run reset/step loop, metric aggregation,
  throughput computation, emission-file conversion lifecycle);
* `flow/scenarios/netfile/gen.py`, function `_import_tls_from_net`
  (the traffic-light importer for `.net.xml` configuration files).

Modelling conventions:

* Python floats are modelled as exact rationals `ℚ`.  The float literal
  `1e-5` is modelled as the rational `1/100000`, `1e-6` as `1/1000000`.
* `numpy.mean` of an empty array does not raise in Python: it emits a
  warning and returns the floating-point value NaN.  NaN is modelled as
  `Option.none`; a present (non-NaN) value `x` is `some x`.  NaN
  propagation through `numpy` reductions is modelled explicitly
  (a reduction over a list containing `none` is `none`).
* `numpy.std` returns the square root of the population variance, which
  is in general irrational.  The embedding records the *square* of the
  standard deviation (the population variance, `npStdSq`); this is a
  faithful proxy for every claim below, which only concern *which samples
  enter* the reduction, a question invariant under squaring.
* Python exceptions are modelled by an explicit error result
  (`Except`-style): `RunError.valueError` models the `ValueError` raised
  by the `convert_to_csv` precondition check (the spec's
  `ConfigurationError`), `RunError.nameError` models the
  `NameError`/`UnboundLocalError` raised when a variable that is only
  assigned inside the per-run loop is read after a loop that executed
  zero times, `RunError.emissionToCsvError` models the exception
  propagating out of `emission_to_csv` (the spec's
  `EmissionConversionError`), and `RunError.fileNotFoundError` models
  `os.remove` on a missing file.
* The simulation environment (`self.env`), whose code is outside the
  provided sources, is an explicit parameter: a record of the operations
  the driver invokes on it (`reset`, `step`, the `k.vehicle` accessors
  `get_ids`/`get_speed`/`get_outflow_rate`/`get_inflow_rate`, and the
  configuration attributes `sim_params.emission_path` / `network.name`),
  each a pure function of an abstract environment state `σ`.
* Every externally visible action of the driver is recorded in an event
  log (`Ev`), so that ordering claims ("no step before the error",
  "terminate before conversion") are statements about the log.
-/

/-- Events recorded for each externally visible action the driver performs:
environment calls, the settling sleep, and filesystem operations. -/
inductive Ev where
  | reset
  | stepCall
  | speedQuery
  | outflowQuery
  | inflowQuery
  | terminate
  | sleep
  | convert (p : String)
  | remove (p : String)
  deriving DecidableEq

/-- Errors the embedded `Experiment.run` can surface; see the module
comment for the correspondence with Python exceptions and with the
spec's error taxonomy. -/
inductive RunError where
  | valueError
  | nameError
  | typeError
  | emissionToCsvError
  | fileNotFoundError
  deriving DecidableEq

/-- One on-disk file: its path and whether its content is a well-formed
emission log (malformed files make the converter fail). -/
structure FSFile where
  path : String
  wellFormed : Bool
  deriving DecidableEq

/-- The file system, as the list of present files. -/
abbrev FS := List FSFile

/-- Model of `np.mean` on a list of (non-NaN) floats: NaN (`none`) on an
empty list, otherwise the arithmetic mean. -/
def npMean (xs : List ℚ) : Option ℚ :=
  if xs.isEmpty then none else some (xs.sum / (xs.length : ℚ))

/-- The values of a float array whose entries may be NaN (`none`):
`none` as soon as one entry is NaN, otherwise the list of values. -/
def stripNaN : List (Option ℚ) → Option (List ℚ)
  | [] => some []
  | none :: _ => none
  | some x :: xs => (stripNaN xs).map (fun ys => x :: ys)

/-- Model of `np.mean` on a float array whose entries may be NaN
(`none`): NaN if the array is empty or contains a NaN, otherwise the
arithmetic mean. -/
def npMeanO (xs : List (Option ℚ)) : Option ℚ :=
  match stripNaN xs with
  | none => none
  | some ys => npMean ys

/-- Model of the square of `np.std` (the population variance) on a float
array whose entries may be NaN: NaN-propagating like `npMeanO`.  The
square root applied by `np.std` itself is irrational in general and is
not material to any claim, so the variance is what the embedding
records. -/
def npStdSq (xs : List (Option ℚ)) : Option ℚ :=
  match stripNaN xs with
  | none => none
  | some ys =>
    if ys.isEmpty then none
    else some ((ys.map (fun x => (x - ys.sum / (ys.length : ℚ))^2)).sum / (ys.length : ℚ))

/-- Round-half-to-even to the nearest integer, as `np.around` does. -/
def nearestEvenInt (q : ℚ) : ℤ :=
  let f : ℤ := ⌊q⌋
  if q - f < 1/2 then f
  else if (1 : ℚ)/2 < q - f then f + 1
  else if f % 2 = 0 then f else f + 1

/-- Model of `np.around(x, decimals=2)`, NaN-propagating. -/
def round2 (x : Option ℚ) : Option ℚ :=
  x.map (fun q => (nearestEvenInt (q * 100) : ℚ) / 100)

/-- The `emission_path` slot of `SimParams` (`flow/core/params.py`):
the only simulation parameter the driver reads. -/
structure SimParams where
  emission_path : Option String

/-- The network attached to the environment; the driver only reads its
`name`. -/
structure Network where
  name : String

/-- Result of one `env.step(action)` call: the successor environment
state, the observation returned to the caller, the reward, and the
terminal flag.  (The Python `info` slot is discarded by the driver and
therefore not modelled.) -/
structure StepOut (σ Obs : Type) where
  s : σ
  obs : Obs
  reward : ℚ
  done : Bool

/-- The environment collaborator of the driver, as the record of
operations `Experiment.run` invokes on `self.env`.  The environment's
mutable state is made explicit as a value of type `σ`; each operation is
a pure function of it.  `get_ids`/`get_speed` stand for
`env.k.vehicle.get_ids()` / `env.k.vehicle.get_speed(ids)`; per the spec
(§4.2) `get_speed` returns one cached float per requested id, so it is
modelled per-id, with the driver mapping it over `get_ids`.
`get_outflow_rate`/`get_inflow_rate` take their trailing-window argument
in seconds. -/
structure Env (σ Obs Act : Type) where
  sim_params : SimParams
  network : Network
  reset : σ → σ × Obs
  step : σ → Option Act → StepOut σ Obs
  get_ids : σ → List Nat
  get_speed : σ → Nat → ℚ
  get_outflow_rate : σ → Nat → ℚ
  get_inflow_rate : σ → Nat → ℚ

/-- Result of the inner (per-step) loop of `Experiment.run`: final
environment state, the `vel` array, the cumulative return `ret`, the
per-step reward list `ret_list`, and the event log of the loop. -/
structure StepRes (σ : Type) where
  s : σ
  vel : List (Option ℚ)
  ret : ℚ
  ret_list : List ℚ
  log : List Ev

/-- The inner loop of `Experiment.run` (`for j in range(num_steps)`),
with `fuel` the number of iterations remaining and `j` the current index:
each iteration calls `env.step(rl_actions(state))`, stores
`np.mean(get_speed(get_ids()))` into `vel[j]`, accumulates the reward
into `ret`, appends it to `ret_list`, and breaks when `done`. -/
def stepLoop (env : Env σ Obs Act) (action : Obs → Option Act) :
    Nat → Nat → σ → Obs → List (Option ℚ) → ℚ → List ℚ → StepRes σ
  | 0, _, s, _, vel, ret, rl => ⟨s, vel, ret, rl, []⟩
  | fuel+1, j, s, obs, vel, ret, rl =>
    let so := env.step s (action obs)
    let v := npMean ((env.get_ids so.s).map (env.get_speed so.s))
    let vel' := vel.set j v
    let ret' := ret + so.reward
    let rl' := rl ++ [so.reward]
    if so.done then ⟨so.s, vel', ret', rl', [Ev.stepCall, Ev.speedQuery]⟩
    else
      let r := stepLoop env action fuel (j+1) so.s so.obs vel' ret' rl'
      ⟨r.s, r.vel, r.ret, r.ret_list, Ev.stepCall :: Ev.speedQuery :: r.log⟩

/-- The data one loop iteration of `Experiment.run` produces for its run:
the `vel` array, `ret`, `ret_list`, the outflow and inflow rates queried
at the end of the run, and the run's event log. -/
structure Rec where
  vel : List (Option ℚ)
  ret : ℚ
  ret_list : List ℚ
  outflow : ℚ
  inflow : ℚ
  log : List Ev

/-- One iteration of the outer (per-run) loop of `Experiment.run`:
`vel = np.zeros(num_steps)`, `ret = 0`, `ret_list = []`,
`state = env.reset()`, the inner step loop, then
`get_outflow_rate(500)` and `get_inflow_rate(500)`. -/
def singleRun (env : Env σ Obs Act) (action : Obs → Option Act)
    (num_steps : Nat) (s : σ) : σ × Rec :=
  let r0 := env.reset s
  let res := stepLoop env action num_steps 0 r0.1 r0.2 (List.replicate num_steps (some 0)) 0 []
  let outflow := env.get_outflow_rate res.s 500
  let inflow := env.get_inflow_rate res.s 500
  (res.s, ⟨res.vel, res.ret, res.ret_list, outflow, inflow,
    Ev.reset :: (res.log ++ [Ev.outflowQuery, Ev.inflowQuery])⟩)

/-- The throughput list as computed by the code added at the end of each
loop iteration of `Experiment.run`:
`if np.all(np.array(inflows) > 1e-5): throughput = [x / y for x, y in zip(outflows, inflows)]
 else: throughput = [0] * len(inflows)`. -/
def throughputOf (outflows inflows : List ℚ) : List ℚ :=
  if ∀ x ∈ inflows, (1 : ℚ)/100000 < x then
    List.zipWith (fun a b => a / b) outflows inflows
  else
    List.replicate inflows.length 0

/-- The local variables of `Experiment.run` that the per-run loop
accumulates or (re)assigns: the eight aggregate lists, plus the
loop-scope variables `i`, `ret` and `throughput` whose last assigned
values survive the loop.  The latter three are `Option`-valued: `none`
models "never assigned", so that reading them after a zero-iteration
loop is the Python `NameError`. -/
structure RunAcc where
  rets : List ℚ
  vels : List (List (Option ℚ))
  mean_rets : List (Option ℚ)
  ret_lists : List (List ℚ)
  mean_vels : List (Option ℚ)
  std_vels : List (Option ℚ)
  outflows : List ℚ
  inflows : List ℚ
  last_i : Option Nat
  last_ret : Option ℚ
  throughput : Option (List ℚ)

/-- The accumulator state before the per-run loop starts. -/
def RunAcc.init : RunAcc := ⟨[], [], [], [], [], [], [], [], none, none, none⟩

/-- Result of the outer loop: final environment state, accumulators, and
event log. -/
structure LoopRes (σ : Type) where
  s : σ
  acc : RunAcc
  log : List Ev

/-- The outer loop of `Experiment.run` (`for i in range(num_runs)`):
runs `singleRun`, appends to the aggregate lists in source order
(`rets`, `vels`, `mean_rets`, `ret_lists`, `mean_vels`, `std_vels`,
`outflows`, `inflows`), and recomputes `throughput` from the
*accumulated* `outflows`/`inflows` lists (the all-or-nothing
computation). -/
def runLoop (env : Env σ Obs Act) (action : Obs → Option Act) (num_steps : Nat) :
    Nat → Nat → σ → RunAcc → LoopRes σ
  | 0, _, s, acc => ⟨s, acc, []⟩
  | n+1, i, s, acc =>
    let pr := singleRun env action num_steps s
    let r := pr.2
    let outflows' := acc.outflows ++ [r.outflow]
    let inflows' := acc.inflows ++ [r.inflow]
    let acc' : RunAcc :=
      { rets := acc.rets ++ [r.ret]
        vels := acc.vels ++ [r.vel]
        mean_rets := acc.mean_rets ++ [npMean r.ret_list]
        ret_lists := acc.ret_lists ++ [r.ret_list]
        mean_vels := acc.mean_vels ++ [npMeanO r.vel]
        std_vels := acc.std_vels ++ [npStdSq r.vel]
        outflows := outflows'
        inflows := inflows'
        last_i := some i
        last_ret := some r.ret
        throughput := some (throughputOf outflows' inflows') }
    let rest := runLoop env action num_steps n (i+1) pr.1 acc'
    ⟨rest.s, rest.acc, r.log ++ rest.log⟩

/-- The `info_dict` returned by `Experiment.run`; field names are the
dictionary keys assigned at the end of the method. -/
structure InfoDict where
  returns : List ℚ
  velocities : List (List (Option ℚ))
  mean_returns : List (Option ℚ)
  per_step_returns : List (List ℚ)
  mean_outflows : Option ℚ
  avg_spd : Option ℚ
  avg_tpt : Option ℚ

/-- What a call to `Experiment.run` produces: the returned `info_dict`
or the exception that propagated, the event log, and the final file
system. -/
structure RunResult where
  res : Except RunError InfoDict
  log : List Ev
  fs : FS

/-- Modelled from the spec: `emission_to_csv` (`flow/core/util.py`, not
among the provided sources) parses the XML emission log at the given
path and writes a CSV-equivalent tabular artifact next to it; it fails
if the file is missing or malformed (§4.4, §6).  The spec does not fix
the artifact's exact filename, so the model names it by suffixing the
source path with `.csv`. -/
def emission_to_csv (fs : FS) (p : String) : Except Unit FS :=
  match fs.find? (fun f => f.path == p) with
  | none => Except.error ()
  | some f =>
    if f.wellFormed then Except.ok (fs ++ [⟨p ++ ".csv", true⟩]) else Except.error ()

/-- Model of `os.remove`: deletes the file at the given path, failing
(`FileNotFoundError`) if no such file exists. -/
def osRemove (fs : FS) (p : String) : Except Unit FS :=
  if fs.any (fun f => f.path == p) then
    Except.ok (fs.filter (fun f => !(f.path == p)))
  else Except.error ()

/-- Shallow embedding of `Experiment.run`
(`flow/core/experiment.py`, lines 67-200), in source order:

1. the `convert_to_csv`/`emission_path` precondition check
   (`raise ValueError`) before anything else runs;
2. defaulting of `rl_actions` to a function returning `None`;
3. the per-run loop (`runLoop`, starting from `RunAcc.init`);
4. the `info_dict` assignments; `mean_outflows = np.mean(outflows)`;
5. the `output_to_terminal` print block, which reads the loop variables
   `i`, `ret` and `throughput` (a `NameError` when `num_runs == 0`);
6. `avg_spd`; `avg_tpt = np.around(np.mean(throughput), 2)`, which reads
   `throughput` unconditionally (a `NameError` when `num_runs == 0`);
7. `env.terminate()`;
8. if `convert_to_csv`: `time.sleep(0.1)`, the emission path
   `<emission_path>/<network-name>-emission.xml`,
   `emission_to_csv(emission_path)`, `os.remove(emission_path)`;
9. `return info_dict`.

All `NameError` branches produce the same observable result, so the
reads of `i`/`ret`/`throughput` in the print block are checked as one
condition. -/
def Experiment.run (env : Env σ Obs Act) (s₀ : σ) (num_runs num_steps : Nat)
    (rl_actions : Option (Obs → Option Act)) (convert_to_csv : Bool)
    (output_to_terminal : Bool) (fs₀ : FS) : RunResult :=
  if convert_to_csv = true ∧ env.sim_params.emission_path = none then
    ⟨Except.error RunError.valueError, [], fs₀⟩
  else
    let action := rl_actions.getD (fun _ => none)
    let L := runLoop env action num_steps num_runs 0 s₀ RunAcc.init
    if output_to_terminal = true ∧
        (L.acc.last_i = none ∨ L.acc.last_ret = none ∨ L.acc.throughput = none) then
      ⟨Except.error RunError.nameError, L.log, fs₀⟩
    else
      match L.acc.throughput with
      | none => ⟨Except.error RunError.nameError, L.log, fs₀⟩
      | some tpt =>
        let info : InfoDict :=
          { returns := L.acc.rets
            velocities := L.acc.vels
            mean_returns := L.acc.mean_rets
            per_step_returns := L.acc.ret_lists
            mean_outflows := npMean L.acc.outflows
            avg_spd := round2 (npMeanO L.acc.mean_vels)
            avg_tpt := round2 (npMean tpt) }
        let log₁ := L.log ++ [Ev.terminate]
        if convert_to_csv then
          match env.sim_params.emission_path with
          | none => ⟨Except.error RunError.typeError, log₁ ++ [Ev.sleep], fs₀⟩
          | some d =>
            let p := d ++ "/" ++ env.network.name ++ "-emission.xml"
            match emission_to_csv fs₀ p with
            | Except.error _ =>
              ⟨Except.error RunError.emissionToCsvError, log₁ ++ [Ev.sleep, Ev.convert p], fs₀⟩
            | Except.ok fs₁ =>
              match osRemove fs₁ p with
              | Except.error _ =>
                ⟨Except.error RunError.fileNotFoundError, log₁ ++ [Ev.sleep, Ev.convert p], fs₁⟩
              | Except.ok fs₂ =>
                ⟨Except.ok info, log₁ ++ [Ev.sleep, Ev.convert p, Ev.remove p], fs₂⟩
        else ⟨Except.ok info, log₁, fs₀⟩

/-! ## The tlLogic importer (`flow/scenarios/netfile/gen.py`) -/

/-- A parsed XML element: tag, attribute dictionary, child elements. -/
inductive XmlElem where
  | mk (tag : String) (attrib : List (String × String)) (children : List XmlElem)

/-- The tag of an element. -/
def XmlElem.tag : XmlElem → String
  | .mk t _ _ => t

/-- The attribute dictionary of an element. -/
def XmlElem.attrib : XmlElem → List (String × String)
  | .mk _ a _ => a

/-- The child elements of an element. -/
def XmlElem.children : XmlElem → List XmlElem
  | .mk _ _ c => c

/-- `ElementTree.Element.findall(tag)`: the direct children with the
given tag, in document order. -/
def XmlElem.findall (e : XmlElem) (t : String) : List XmlElem :=
  e.children.filter (fun c => c.tag == t)

/-- Python `KeyError`: a missing attribute key. -/
inductive XmlError where
  | keyError (k : String)

/-- `element.attrib[key]`: the attribute's value, or a `KeyError`. -/
def XmlElem.getAttr (e : XmlElem) (k : String) : Except XmlError String :=
  match e.attrib.lookup k with
  | some v => Except.ok v
  | none => Except.error (XmlError.keyError k)

/-- Modelled from the spec: a traffic-light entry as stored by
`TrafficLights.add` (`flow/core/traffic_lights.py`, not among the
provided sources): "Traffic-light entries are structured as
`{id, type, programID, offset, phases[]}`" (§6), where each phase is the
attribute dictionary of a `phase` child element. -/
structure TLEntry where
  id : String
  type : String
  programID : String
  offset : String
  phases : List (List (String × String))
  deriving DecidableEq

/-- Modelled from the spec: the `TrafficLights` container
(`flow/core/traffic_lights.py`, not among the provided sources), holding
the traffic-light entries in insertion order. -/
structure TrafficLights where
  entries : List TLEntry
  deriving DecidableEq

/-- Modelled from the spec: `TrafficLights.add` appends one entry. -/
def TrafficLights.add (tls : TrafficLights) (node_id tls_type programID offset : String)
    (phases : List (List (String × String))) : TrafficLights :=
  ⟨tls.entries ++ [⟨node_id, tls_type, programID, offset, phases⟩]⟩

/-- The body of the `for tl in root.findall('tlLogic')` loop of
`_import_tls_from_net`, one iteration per element:
`phases = [phase.attrib for phase in tl.findall('phase')]`, then
`tl_logic.add(tl.attrib['id'], tl.attrib['type'], tl.attrib['programID'],
tl.attrib['offset'], phases)`. -/
def addTlsLoop (tls : TrafficLights) : List XmlElem → Except XmlError TrafficLights
  | [] => Except.ok tls
  | tl :: rest => do
    let phases := (tl.findall ("phase")).map (fun ph => ph.attrib)
    let i ← tl.getAttr ("id")
    let t ← tl.getAttr ("type")
    let pid ← tl.getAttr ("programID")
    let off ← tl.getAttr ("offset")
    addTlsLoop (tls.add i t pid off phases) rest

/-- Shallow embedding of `_import_tls_from_net`
(`flow/scenarios/netfile/gen.py`, lines 110-136), taking the root of the
already-parsed configuration file: creates an empty `TrafficLights`
object and adds one entry per `tlLogic` element found under the root. -/
def import_tls_from_net (root : XmlElem) : Except XmlError TrafficLights :=
  addTlsLoop ⟨[]⟩ (root.findall ("tlLogic"))

/-! ## Structural lemmas about the step loop -/

/-- Master lemma for the inner step loop: it appends some list `extra` of
rewards (one per executed step) to `ret_list`, executes at most `fuel`
steps, adds the rewards to `ret`, preserves the length of `vel`, writes
only the slots `j, ..., j + extra.length - 1` of `vel`, performs no
`reset`, and logs one `stepCall` per executed step. -/
theorem stepLoop_spec (env : Env σ Obs Act) (action : Obs → Option Act) :
    ∀ (fuel j : Nat) (s : σ) (obs : Obs) (vel : List (Option ℚ)) (ret : ℚ) (rl : List ℚ),
    ∃ extra : List ℚ,
      (stepLoop env action fuel j s obs vel ret rl).ret_list = rl ++ extra ∧
      extra.length ≤ fuel ∧
      (stepLoop env action fuel j s obs vel ret rl).ret = ret + extra.sum ∧
      (stepLoop env action fuel j s obs vel ret rl).vel.length = vel.length ∧
      (∀ m, m < j ∨ j + extra.length ≤ m →
        (stepLoop env action fuel j s obs vel ret rl).vel[m]? = vel[m]?) ∧
      (stepLoop env action fuel j s obs vel ret rl).log.count Ev.reset = 0 ∧
      (stepLoop env action fuel j s obs vel ret rl).log.count Ev.stepCall = extra.length := by
  intro fuel
  induction fuel with
  | zero =>
    intro j s obs vel ret rl
    exact ⟨[], by simp [stepLoop]⟩
  | succ fuel ih =>
    intro j s obs vel ret rl
    by_cases hd : (env.step s (action obs)).done
    · refine ⟨[(env.step s (action obs)).reward], ?_, ?_, ?_, ?_, ?_, ?_, ?_⟩
      · simp [stepLoop, hd]
      · simp
      · simp [stepLoop, hd]
      · simp [stepLoop, hd]
      · intro m hm
        simp only [List.length_cons, List.length_nil] at hm
        simp only [stepLoop, hd, if_true]
        exact List.getElem?_set_ne (by omega)
      · simp [stepLoop, hd]
      · simp [stepLoop, hd]
    · obtain ⟨extra, h1, h2, h3, h4, h5, h6, h7⟩ :=
        ih (j+1) (env.step s (action obs)).s (env.step s (action obs)).obs
          (vel.set j (npMean (((env.get_ids (env.step s (action obs)).s)).map
            (env.get_speed (env.step s (action obs)).s))))
          (ret + (env.step s (action obs)).reward)
          (rl ++ [(env.step s (action obs)).reward])
      refine ⟨(env.step s (action obs)).reward :: extra, ?_, ?_, ?_, ?_, ?_, ?_, ?_⟩
      · simp only [stepLoop, hd, if_false, Bool.false_eq_true]
        rw [h1, List.append_assoc]
        simp
      · simp only [List.length_cons]
        omega
      · simp only [stepLoop, hd, if_false, Bool.false_eq_true]
        rw [h3, List.sum_cons]
        ring
      · simp only [stepLoop, hd, if_false, Bool.false_eq_true]
        rw [h4, List.length_set]
      · intro m hm
        simp only [List.length_cons] at hm
        simp only [stepLoop, hd, if_false, Bool.false_eq_true]
        have hstep : m < j + 1 ∨ (j + 1) + extra.length ≤ m := by omega
        rw [h5 m hstep]
        exact List.getElem?_set_ne (by omega)
      · simp only [stepLoop, hd, if_false, Bool.false_eq_true]
        simp [List.count_cons, h6]
      · simp only [stepLoop, hd, if_false, Bool.false_eq_true]
        simp [List.count_cons, h7, Nat.add_comm]

/-- The value the step loop records at index `j`: the mean speed over
the vehicles present after the step executed at index `j`. -/
theorem stepLoop_vel_at (env : Env σ Obs Act) (action : Obs → Option Act)
    (fuel j : Nat) (s : σ) (obs : Obs) (vel : List (Option ℚ)) (ret : ℚ) (rl : List ℚ)
    (hj : j < vel.length) :
    (stepLoop env action (fuel+1) j s obs vel ret rl).vel[j]? =
      some (npMean ((env.get_ids (env.step s (action obs)).s).map
        (env.get_speed (env.step s (action obs)).s))) := by
  by_cases hd : (env.step s (action obs)).done
  · simp only [stepLoop, hd, if_true]
    exact List.getElem?_set_self (by simpa using hj)
  · simp only [stepLoop, hd, if_false, Bool.false_eq_true]
    obtain ⟨extra, _, _, _, _, h5, _, _⟩ :=
      stepLoop_spec env action fuel (j+1) (env.step s (action obs)).s
        (env.step s (action obs)).obs
        (vel.set j (npMean (((env.get_ids (env.step s (action obs)).s)).map
          (env.get_speed (env.step s (action obs)).s))))
        (ret + (env.step s (action obs)).reward)
        (rl ++ [(env.step s (action obs)).reward])
    rw [h5 j (Or.inl (by omega))]
    exact List.getElem?_set_self (by simpa using hj)

/-- If the environment never reports any vehicle, every slot of the
`vel` array stays either its initial `0.0` or the NaN recorded by
`np.mean` of an empty speed list. -/
theorem stepLoop_vel_entries (env : Env σ Obs Act) (action : Obs → Option Act)
    (hids : ∀ t, env.get_ids t = []) :
    ∀ (fuel j : Nat) (s : σ) (obs : Obs) (vel : List (Option ℚ)) (ret : ℚ) (rl : List ℚ),
      (∀ x ∈ vel, x = some 0 ∨ x = none) →
      ∀ x ∈ (stepLoop env action fuel j s obs vel ret rl).vel, x = some 0 ∨ x = none := by
  intro fuel
  induction fuel with
  | zero =>
    intro j s obs vel ret rl hv
    simpa [stepLoop] using hv
  | succ fuel ih =>
    intro j s obs vel ret rl hv x hx
    have hset : ∀ y ∈ vel.set j (npMean (((env.get_ids (env.step s (action obs)).s)).map
        (env.get_speed (env.step s (action obs)).s))), y = some 0 ∨ y = none := by
      intro y hy
      rcases List.mem_or_eq_of_mem_set hy with h | h
      · exact hv y h
      · right
        rw [h, hids, List.map_nil]
        simp [npMean]
    by_cases hd : (env.step s (action obs)).done
    · simp only [stepLoop, hd, if_true] at hx
      exact hset x hx
    · simp only [stepLoop, hd, if_false, Bool.false_eq_true] at hx
      exact ih (j+1) _ _ _ _ _ hset x hx

/-- The shape facts of the record one loop iteration of
`Experiment.run` produces: the `vel` array keeps length `num_steps`;
at most `num_steps` rewards are recorded; the cumulative return is their
sum; every `vel` slot at an index at or past the number of executed
steps keeps its initial value `0.0`; the run's log holds exactly one
`reset`, which comes first, and one `stepCall` per executed step. -/
def RecShape (ns : Nat) (r : Rec) : Prop :=
  r.vel.length = ns ∧
  r.ret_list.length ≤ ns ∧
  r.ret = r.ret_list.sum ∧
  (∀ m, r.ret_list.length ≤ m → m < ns → r.vel[m]? = some (some 0)) ∧
  r.log.count Ev.reset = 1 ∧
  r.log.count Ev.stepCall = r.ret_list.length ∧
  r.log.head? = some Ev.reset

/-- Every record produced by `singleRun` satisfies `RecShape`. -/
theorem singleRun_spec (env : Env σ Obs Act) (action : Obs → Option Act)
    (ns : Nat) (s : σ) : RecShape ns (singleRun env action ns s).2 := by
  obtain ⟨extra, h1, h2, h3, h4, h5, h6, h7⟩ :=
    stepLoop_spec env action ns 0 (env.reset s).1 (env.reset s).2
      (List.replicate ns (some 0)) 0 []
  have hlen : (List.replicate ns (some (0:ℚ))).length = ns := List.length_replicate ..
  refine ⟨?_, ?_, ?_, ?_, ?_, ?_, ?_⟩
  · simpa [singleRun] using h4.trans hlen
  · simpa [singleRun, h1] using h2
  · simp [singleRun, h1, h3]
  · intro m hm hmn
    simp only [singleRun] at hm ⊢
    rw [h1] at hm
    simp only [List.nil_append] at hm
    rw [h5 m (Or.inr (by omega))]
    simp [List.getElem?_replicate, hmn]
  · simp [singleRun, List.count_cons, List.count_append, h6]
  · simp [singleRun, List.count_cons, List.count_append, h7, h1]
  · simp [singleRun]

/-- Master lemma for the per-run loop: it produces one record per run
(each of shape `RecShape`), appends their projections in order to the
eight aggregate lists, concatenates their logs, and — as soon as at
least one run happened — leaves the loop variables `i`, `ret` and
`throughput` assigned, with `throughput` computed from the *accumulated*
outflow and inflow lists. -/
theorem runLoop_spec (env : Env σ Obs Act) (action : Obs → Option Act) (ns : Nat) :
    ∀ (n i : Nat) (s : σ) (acc : RunAcc),
    ∃ recs : List Rec,
      recs.length = n ∧
      (runLoop env action ns n i s acc).acc.rets = acc.rets ++ recs.map (fun r => r.ret) ∧
      (runLoop env action ns n i s acc).acc.vels = acc.vels ++ recs.map (fun r => r.vel) ∧
      (runLoop env action ns n i s acc).acc.mean_rets
        = acc.mean_rets ++ recs.map (fun r => npMean r.ret_list) ∧
      (runLoop env action ns n i s acc).acc.ret_lists
        = acc.ret_lists ++ recs.map (fun r => r.ret_list) ∧
      (runLoop env action ns n i s acc).acc.mean_vels
        = acc.mean_vels ++ recs.map (fun r => npMeanO r.vel) ∧
      (runLoop env action ns n i s acc).acc.std_vels
        = acc.std_vels ++ recs.map (fun r => npStdSq r.vel) ∧
      (runLoop env action ns n i s acc).acc.outflows
        = acc.outflows ++ recs.map (fun r => r.outflow) ∧
      (runLoop env action ns n i s acc).acc.inflows
        = acc.inflows ++ recs.map (fun r => r.inflow) ∧
      (runLoop env action ns n i s acc).log = (recs.map (fun r => r.log)).flatten ∧
      (∀ r ∈ recs, RecShape ns r ∧ ∃ t, r = (singleRun env action ns t).2) ∧
      (0 < n →
        (∃ a, (runLoop env action ns n i s acc).acc.last_i = some a) ∧
        (∃ b, (runLoop env action ns n i s acc).acc.last_ret = some b) ∧
        (runLoop env action ns n i s acc).acc.throughput
          = some (throughputOf (runLoop env action ns n i s acc).acc.outflows
              (runLoop env action ns n i s acc).acc.inflows)) ∧
      (n = 0 → (runLoop env action ns n i s acc).acc = acc) := by
  intro n
  induction n with
  | zero =>
    intro i s acc
    exact ⟨[], by simp [runLoop]⟩
  | succ n ih =>
    intro i s acc
    rcases Nat.eq_zero_or_pos n with hn | hn
    · subst hn
      refine ⟨[(singleRun env action ns s).2], ?_⟩
      simp only [runLoop]
      refine ⟨rfl, by simp, by simp, by simp, by simp, by simp, by simp, by simp, by simp,
        by simp, ?_, ?_, by simp⟩
      · intro r hr
        rw [List.mem_singleton] at hr
        rw [hr]
        exact ⟨singleRun_spec env action ns s, ⟨s, rfl⟩⟩
      · intro _
        refine ⟨⟨i, rfl⟩, ⟨(singleRun env action ns s).2.ret, rfl⟩, ?_⟩
        simp [runLoop]
    · obtain ⟨recs, g0, g1, g2, g3, g4, g5, g6, g7, g8, g9, g10, g11, _⟩ :=
        ih (i+1) (singleRun env action ns s).1
          { rets := acc.rets ++ [(singleRun env action ns s).2.ret]
            vels := acc.vels ++ [(singleRun env action ns s).2.vel]
            mean_rets := acc.mean_rets ++ [npMean (singleRun env action ns s).2.ret_list]
            ret_lists := acc.ret_lists ++ [(singleRun env action ns s).2.ret_list]
            mean_vels := acc.mean_vels ++ [npMeanO (singleRun env action ns s).2.vel]
            std_vels := acc.std_vels ++ [npStdSq (singleRun env action ns s).2.vel]
            outflows := acc.outflows ++ [(singleRun env action ns s).2.outflow]
            inflows := acc.inflows ++ [(singleRun env action ns s).2.inflow]
            last_i := some i
            last_ret := some (singleRun env action ns s).2.ret
            throughput := some (throughputOf
              (acc.outflows ++ [(singleRun env action ns s).2.outflow])
              (acc.inflows ++ [(singleRun env action ns s).2.inflow])) }
      refine ⟨(singleRun env action ns s).2 :: recs, ?_⟩
      simp only [runLoop]
      refine ⟨by simp [g0], ?_, ?_, ?_, ?_, ?_, ?_, ?_, ?_, ?_, ?_, ?_, by simp⟩
      · rw [g1]; simp
      · rw [g2]; simp
      · rw [g3]; simp
      · rw [g4]; simp
      · rw [g5]; simp
      · rw [g6]; simp
      · rw [g7]; simp
      · rw [g8]; simp
      · rw [g9]; simp
      · intro r hr
        rcases List.mem_cons.mp hr with h | h
        · rw [h]; exact ⟨singleRun_spec env action ns s, ⟨s, rfl⟩⟩
        · exact g10 r h
      · intro _
        exact g11 hn

/-- The `info_dict` value `Experiment.run` returns, expressed as a
function of the final accumulator state.  (`avg_tpt` is written in terms
of `throughputOf` applied to the final outflow/inflow lists; by
`runLoop_spec` that is exactly the final value of the loop variable
`throughput`.) -/
def infoOf (acc : RunAcc) : InfoDict :=
  { returns := acc.rets
    velocities := acc.vels
    mean_returns := acc.mean_rets
    per_step_returns := acc.ret_lists
    mean_outflows := npMean acc.outflows
    avg_spd := round2 (npMeanO acc.mean_vels)
    avg_tpt := round2 (npMean (throughputOf acc.outflows acc.inflows)) }

/-- With at least one run and `convert_to_csv = False`, `Experiment.run`
returns the collected metrics, logs the loop's events followed by the
final `terminate()`, and leaves the file system untouched. -/
theorem run_ok_no_convert (env : Env σ Obs Act) (s₀ : σ) (nr ns : Nat)
    (ract : Option (Obs → Option Act)) (ott : Bool) (fs : FS) (h : 1 ≤ nr) :
    Experiment.run env s₀ nr ns ract false ott fs =
      ⟨Except.ok (infoOf (runLoop env (ract.getD (fun _ => none)) ns nr 0 s₀ RunAcc.init).acc),
       (runLoop env (ract.getD (fun _ => none)) ns nr 0 s₀ RunAcc.init).log ++ [Ev.terminate],
       fs⟩ := by
  obtain ⟨recs, -, -, -, -, -, -, -, -, -, -, -, hpos, -⟩ :=
    runLoop_spec env (ract.getD (fun _ => none)) ns nr 0 s₀ RunAcc.init
  obtain ⟨⟨a, ha⟩, ⟨b, hb⟩, htpt⟩ := hpos (by omega)
  simp only [Experiment.run, ha, hb, htpt, infoOf]
  rw [if_neg (by simp), if_neg (by simp), if_neg (by simp)]

/-- With at least one run, `convert_to_csv = True`, an `emission_path`,
and a failing conversion, `Experiment.run` surfaces the conversion error
after the final `terminate()`; the metrics are not returned and the file
system is unchanged. -/
theorem run_convert_fail (env : Env σ Obs Act) (s₀ : σ) (nr ns : Nat)
    (ract : Option (Obs → Option Act)) (ott : Bool) (fs : FS) (d : String) (h : 1 ≤ nr)
    (hp : env.sim_params.emission_path = some d)
    (hc : emission_to_csv fs (d ++ "/" ++ env.network.name ++ "-emission.xml")
      = Except.error ()) :
    Experiment.run env s₀ nr ns ract true ott fs =
      ⟨Except.error RunError.emissionToCsvError,
       (runLoop env (ract.getD (fun _ => none)) ns nr 0 s₀ RunAcc.init).log
         ++ [Ev.terminate, Ev.sleep,
             Ev.convert (d ++ "/" ++ env.network.name ++ "-emission.xml")],
       fs⟩ := by
  obtain ⟨recs, -, -, -, -, -, -, -, -, -, -, -, hpos, -⟩ :=
    runLoop_spec env (ract.getD (fun _ => none)) ns nr 0 s₀ RunAcc.init
  obtain ⟨⟨a, ha⟩, ⟨b, hb⟩, htpt⟩ := hpos (by omega)
  simp only [Experiment.run, ha, hb, htpt, hp, hc]
  simp

/-- With at least one run, `convert_to_csv = True`, an `emission_path`,
a succeeding conversion and a succeeding delete, `Experiment.run`
returns the metrics; the log ends with `terminate`, the settling sleep,
the conversion, and the deletion, in that order. -/
theorem run_convert_ok (env : Env σ Obs Act) (s₀ : σ) (nr ns : Nat)
    (ract : Option (Obs → Option Act)) (ott : Bool) (fs : FS) (d : String) (fs₁ fs₂ : FS)
    (h : 1 ≤ nr) (hp : env.sim_params.emission_path = some d)
    (hc : emission_to_csv fs (d ++ "/" ++ env.network.name ++ "-emission.xml")
      = Except.ok fs₁)
    (hr : osRemove fs₁ (d ++ "/" ++ env.network.name ++ "-emission.xml") = Except.ok fs₂) :
    Experiment.run env s₀ nr ns ract true ott fs =
      ⟨Except.ok (infoOf (runLoop env (ract.getD (fun _ => none)) ns nr 0 s₀ RunAcc.init).acc),
       (runLoop env (ract.getD (fun _ => none)) ns nr 0 s₀ RunAcc.init).log
         ++ [Ev.terminate, Ev.sleep,
             Ev.convert (d ++ "/" ++ env.network.name ++ "-emission.xml"),
             Ev.remove (d ++ "/" ++ env.network.name ++ "-emission.xml")],
       fs₂⟩ := by
  obtain ⟨recs, -, -, -, -, -, -, -, -, -, -, -, hpos, -⟩ :=
    runLoop_spec env (ract.getD (fun _ => none)) ns nr 0 s₀ RunAcc.init
  obtain ⟨⟨a, ha⟩, ⟨b, hb⟩, htpt⟩ := hpos (by omega)
  simp only [Experiment.run, ha, hb, htpt, hp, hc, hr, infoOf]
  simp

/-- If the environment never reports any vehicle, every slot of a run's
`vel` array is either its initial `0.0` or the NaN recorded by `np.mean`
of an empty speed list. -/
theorem singleRun_vel_entries (env : Env σ Obs Act) (action : Obs → Option Act)
    (ns : Nat) (t : σ) (hids : ∀ u, env.get_ids u = []) :
    ∀ x ∈ (singleRun env action ns t).2.vel, x = some 0 ∨ x = none := by
  intro x hx
  refine stepLoop_vel_entries env action hids ns 0 (env.reset t).1 (env.reset t).2
    (List.replicate ns (some 0)) 0 [] ?_ x (by simpa [singleRun] using hx)
  intro y hy
  exact Or.inl (List.eq_of_mem_replicate hy)

/-! ## Concrete environments used as witnesses -/

/-- A concrete environment with no vehicles, constant reward `1`, never
`done`, outflow rate `2` and inflow rate `1`, an emission path `data`
and network name `net`. -/
def envW : Env Unit Unit Unit :=
  { sim_params := { emission_path := some ("data") }
    network := { name := ("net") }
    reset := fun s => (s, ())
    step := fun s _ => { s := s, obs := (), reward := 1, done := false }
    get_ids := fun _ => []
    get_speed := fun _ _ => 2
    get_outflow_rate := fun _ _ => 2
    get_inflow_rate := fun _ _ => 1 }

/-- A concrete environment configured without an emission path. -/
def envN : Env Unit Unit Unit :=
  { sim_params := { emission_path := none }
    network := { name := ("net") }
    reset := fun s => (s, ())
    step := fun s _ => { s := s, obs := (), reward := 1, done := false }
    get_ids := fun _ => []
    get_speed := fun _ _ => 2
    get_outflow_rate := fun _ _ => 2
    get_inflow_rate := fun _ _ => 1 }

/-! ## The claims -/

/-- Claim C4: if `Experiment.run` is called with `convert_to_csv` true
but the environment's `emission_path` configured as `None`, it fails
immediately with the configuration error (the `ValueError` of line 92,
the spec's `ConfigurationError`) before any simulation executes: the
event log is empty, so no `reset`, no `step` and no vehicle-state query
occurred, and the file system is untouched. -/
theorem C4_fail_fast_no_simulation (env : Env σ Obs Act) (s₀ : σ) (nr ns : Nat)
    (ract : Option (Obs → Option Act)) (ott : Bool) (fs : FS)
    (h : env.sim_params.emission_path = none) :
    Experiment.run env s₀ nr ns ract true ott fs =
      ⟨Except.error RunError.valueError, [], fs⟩ := by
  simp [Experiment.run, h]

/-- Witness for C4 at a concrete environment. -/
theorem C4_fail_fast_no_simulation_witness :
    envN.sim_params.emission_path = none ∧
    Experiment.run envN () 3 5 none true true [] =
      ⟨Except.error RunError.valueError, [], []⟩ :=
  ⟨rfl, C4_fail_fast_no_simulation envN () 3 5 none true [] rfl⟩

/-- Claim C10: `Experiment.run` with `num_runs = 0` does not return an
empty metrics dictionary: it fails with the unbound-name error, because
`throughput`, `i` and `ret` are only assigned inside the per-run loop
yet are read after it (lines 167 and 175/180).  This holds both for the
default `output_to_terminal = True` (the read of `i` in the print) and
for `False` (the read of `throughput` in the `avg_tpt` assignment). -/
theorem C10_num_runs_zero_name_error (env : Env σ Obs Act) (s₀ : σ) (ns : Nat)
    (ott : Bool) (fs : FS) :
    Experiment.run env s₀ 0 ns none false ott fs =
      ⟨Except.error RunError.nameError, [], fs⟩ := by
  cases ott <;> simp [Experiment.run, runLoop, RunAcc.init]

/-- Witness for C10 at a concrete environment, with the default
`output_to_terminal = True`. -/
theorem C10_num_runs_zero_name_error_witness :
    Experiment.run envN () 0 7 none false true [] =
      ⟨Except.error RunError.nameError, [], []⟩ :=
  C10_num_runs_zero_name_error envN () 7 true []

/-- Claim C5: for `num_runs ≥ 1` and `num_steps ≥ 1`, `Experiment.run`
with the default (no-op) action function returns a metrics dictionary
whose `returns` and `mean_returns` entries each contain exactly
`num_runs` elements. -/
theorem C5_metrics_lengths (env : Env σ Obs Act) (s₀ : σ) (nr ns : Nat)
    (ott : Bool) (fs : FS) (h1 : 1 ≤ nr) (_h2 : 1 ≤ ns) :
    ∃ info : InfoDict,
      (Experiment.run env s₀ nr ns none false ott fs).res = Except.ok info ∧
      info.returns.length = nr ∧ info.mean_returns.length = nr := by
  obtain ⟨recs, g0, g1, -, g3, -, -, -, -, -, -, -, -, -⟩ :=
    runLoop_spec env ((none : Option (Obs → Option Act)).getD (fun _ => none)) ns nr 0 s₀
      RunAcc.init
  simp only [Option.getD_none, RunAcc.init, List.nil_append] at g1 g3
  refine ⟨_, by rw [run_ok_no_convert env s₀ nr ns none ott fs h1], ?_, ?_⟩
  · simp [infoOf, RunAcc.init, g1, g0]
  · simp [infoOf, RunAcc.init, g3, g0]

/-- Witness for C5 at a concrete environment. -/
theorem C5_metrics_lengths_witness :
    1 ≤ 2 ∧ 1 ≤ 3 ∧
    ∃ info : InfoDict,
      (Experiment.run envW () 2 3 none false true []).res = Except.ok info ∧
      info.returns.length = 2 ∧ info.mean_returns.length = 2 :=
  ⟨by omega, by omega, C5_metrics_lengths envW () 2 3 true [] (by omega) (by omega)⟩

/-- Claim C2: for every step in which zero vehicles are present, the
per-step mean vehicle speed recorded by `Experiment.run` is a
well-defined value, never a division-by-zero failure.  Part one: at any
step whose post-step vehicle-id list is empty, the value stored into
`vel[j]` is exactly the explicit undefined-safe marker (`np.mean` of an
empty array: NaN, modelled `none`) — the recording is total, no
exception is raised.  Part two: over an environment with no vehicles at
all, the whole run still succeeds and every recorded velocity entry is
either the initial `0.0` or that NaN marker. -/
theorem C2_mean_speed_zero_vehicles (env : Env σ Obs Act) (action : Obs → Option Act) :
    (∀ (fuel j : Nat) (s : σ) (obs : Obs) (vel : List (Option ℚ)) (ret : ℚ) (rl : List ℚ),
      env.get_ids ((env.step s (action obs)).s) = [] → j < vel.length →
      (stepLoop env action (fuel+1) j s obs vel ret rl).vel[j]? = some none) ∧
    (∀ (s₀ : σ) (nr ns : Nat) (ott : Bool) (fs : FS),
      (∀ t, env.get_ids t = []) → 1 ≤ nr →
      ∃ info : InfoDict,
        (Experiment.run env s₀ nr ns (some action) false ott fs).res = Except.ok info ∧
        ∀ v ∈ info.velocities, ∀ x ∈ v, x = some 0 ∨ x = none) := by
  constructor
  · intro fuel j s obs vel ret rl hz hj
    rw [stepLoop_vel_at env action fuel j s obs vel ret rl hj, hz]
    simp [npMean]
  · intro s₀ nr ns ott fs hids hnr
    obtain ⟨recs, g0, -, g2, -, -, -, -, -, -, -, g10, -, -⟩ :=
      runLoop_spec env ((some action).getD (fun _ => none)) ns nr 0 s₀ RunAcc.init
    simp only [Option.getD_some, RunAcc.init, List.nil_append] at g2 g10
    refine ⟨_, by rw [run_ok_no_convert env s₀ nr ns (some action) ott fs hnr], ?_⟩
    intro v hv
    simp only [infoOf, Option.getD_some, RunAcc.init] at hv
    rw [g2] at hv
    obtain ⟨r, hr, rfl⟩ := List.mem_map.mp hv
    obtain ⟨-, t, ht⟩ := g10 r hr
    intro x hx
    rw [ht] at hx
    exact singleRun_vel_entries env action ns t hids x hx

/-- Witness for C2 at a concrete no-vehicle environment. -/
theorem C2_mean_speed_zero_vehicles_witness :
    (∀ (fuel j : Nat) (s obs : Unit) (vel : List (Option ℚ)) (ret : ℚ) (rl : List ℚ),
      envW.get_ids ((envW.step s ((fun _ => none) obs)).s) = [] → j < vel.length →
      (stepLoop envW (fun _ => none) (fuel+1) j s obs vel ret rl).vel[j]? = some none) ∧
    (∀ (s₀ : Unit) (nr ns : Nat) (ott : Bool) (fs : FS),
      (∀ t, envW.get_ids t = []) → 1 ≤ nr →
      ∃ info : InfoDict,
        (Experiment.run envW s₀ nr ns (some (fun _ => none)) false ott fs).res
          = Except.ok info ∧
        ∀ v ∈ info.velocities, ∀ x ∈ v, x = some 0 ∨ x = none) :=
  C2_mean_speed_zero_vehicles envW (fun _ => none)

/-- A concrete environment that reports a terminal condition on every
step (so every run stops after one step). -/
def envD : Env Unit Unit Unit :=
  { sim_params := { emission_path := some ("data") }
    network := { name := ("net") }
    reset := fun s => (s, ())
    step := fun s _ => { s := s, obs := (), reward := 5, done := true }
    get_ids := fun _ => []
    get_speed := fun _ _ => 2
    get_outflow_rate := fun _ _ => 2
    get_inflow_rate := fun _ _ => 1 }

/-- Claim C7: for every run, the driver calls `reset()` exactly once
(first event of the run's log), then calls `step` at most `num_steps`
times; as soon as a step reports `done` the loop stops (the last
conjunct: when a step comes back `done`, only that one reward joins
`ret_list`, whatever fuel remains); and an early-terminated run still
contributes its partial metrics — one entry per run in each aggregate
list, with the cumulative return equal to the sum of the recorded
per-step rewards. -/
theorem C7_run_loop_structure (env : Env σ Obs Act) (s₀ : σ) (nr ns : Nat)
    (ract : Option (Obs → Option Act)) (ott : Bool) (fs : FS) (h : 1 ≤ nr) :
    ∃ (info : InfoDict) (recs : List Rec),
      (Experiment.run env s₀ nr ns ract false ott fs).res = Except.ok info ∧
      recs.length = nr ∧
      info.returns = recs.map (fun r => r.ret) ∧
      info.per_step_returns = recs.map (fun r => r.ret_list) ∧
      info.velocities = recs.map (fun r => r.vel) ∧
      info.mean_returns = recs.map (fun r => npMean r.ret_list) ∧
      (Experiment.run env s₀ nr ns ract false ott fs).log
        = (recs.map (fun r => r.log)).flatten ++ [Ev.terminate] ∧
      (∀ r ∈ recs,
        r.log.count Ev.reset = 1 ∧
        r.log.head? = some Ev.reset ∧
        r.log.count Ev.stepCall = r.ret_list.length ∧
        r.ret_list.length ≤ ns ∧
        r.ret = r.ret_list.sum) ∧
      (∀ (fuel j : Nat) (s : σ) (obs : Obs) (vel : List (Option ℚ)) (ret : ℚ)
          (rl : List ℚ),
        (env.step s ((ract.getD (fun _ => none)) obs)).done = true →
        (stepLoop env (ract.getD (fun _ => none)) (fuel+1) j s obs vel ret rl).ret_list
          = rl ++ [(env.step s ((ract.getD (fun _ => none)) obs)).reward]) := by
  obtain ⟨recs, g0, g1, g2, g3, g4, -, -, -, -, g9, g10, -, -⟩ :=
    runLoop_spec env (ract.getD (fun _ => none)) ns nr 0 s₀ RunAcc.init
  simp only [RunAcc.init, List.nil_append] at g1 g2 g3 g4
  refine ⟨_, recs, by rw [run_ok_no_convert env s₀ nr ns ract ott fs h], g0,
    ?_, ?_, ?_, ?_, ?_, ?_, ?_⟩
  · simp [infoOf, RunAcc.init, g1]
  · simp [infoOf, RunAcc.init, g4]
  · simp [infoOf, RunAcc.init, g2]
  · simp [infoOf, RunAcc.init, g3]
  · rw [run_ok_no_convert env s₀ nr ns ract ott fs h]
    simp [g9]
  · intro r hr
    obtain ⟨⟨-, hlen, hsum, -, hc1, hc2, hh⟩, -⟩ := g10 r hr
    exact ⟨hc1, hh, hc2, hlen, hsum⟩
  · intro fuel j s obs vel ret rl hd
    simp [stepLoop, hd]

/-- Witness for C7 at a concrete environment whose every step reports a
terminal condition, so its runs all stop early after one of the three
requested steps. -/
theorem C7_run_loop_structure_witness :
    1 ≤ 2 ∧
    ∃ (info : InfoDict) (recs : List Rec),
      (Experiment.run envD () 2 3 none false true []).res = Except.ok info ∧
      recs.length = 2 ∧
      info.returns = recs.map (fun r => r.ret) ∧
      info.per_step_returns = recs.map (fun r => r.ret_list) ∧
      info.velocities = recs.map (fun r => r.vel) ∧
      info.mean_returns = recs.map (fun r => npMean r.ret_list) ∧
      (Experiment.run envD () 2 3 none false true []).log
        = (recs.map (fun r => r.log)).flatten ++ [Ev.terminate] ∧
      (∀ r ∈ recs,
        r.log.count Ev.reset = 1 ∧
        r.log.head? = some Ev.reset ∧
        r.log.count Ev.stepCall = r.ret_list.length ∧
        r.ret_list.length ≤ 3 ∧
        r.ret = r.ret_list.sum) ∧
      (∀ (fuel j : Nat) (s obs : Unit) (vel : List (Option ℚ)) (ret : ℚ)
          (rl : List ℚ),
        (envD.step s (((none : Option (Unit → Option Unit)).getD (fun _ => none)) obs)).done
          = true →
        (stepLoop envD ((none : Option (Unit → Option Unit)).getD (fun _ => none))
            (fuel+1) j s obs vel ret rl).ret_list
          = rl ++ [(envD.step s
              (((none : Option (Unit → Option Unit)).getD (fun _ => none)) obs)).reward]) :=
  ⟨by omega, C7_run_loop_structure envD () 2 3 none true [] (by omega)⟩

/-- Claim C9: each per-run `velocities` entry keeps length `num_steps`
even when the run terminates early: the slots after the early break keep
their initial `0.0`, and the per-run aggregates `mean_vels` and
`std_vels` are computed over the full padded array (so the padding zeros
are included in them). -/
theorem C9_velocity_padding (env : Env σ Obs Act) (s₀ : σ) (nr ns : Nat)
    (ract : Option (Obs → Option Act)) (ott : Bool) (fs : FS) (h : 1 ≤ nr) :
    ∃ (info : InfoDict) (recs : List Rec),
      (Experiment.run env s₀ nr ns ract false ott fs).res = Except.ok info ∧
      recs.length = nr ∧
      info.velocities = recs.map (fun r => r.vel) ∧
      info.per_step_returns = recs.map (fun r => r.ret_list) ∧
      (runLoop env (ract.getD (fun _ => none)) ns nr 0 s₀ RunAcc.init).acc.mean_vels
        = recs.map (fun r => npMeanO r.vel) ∧
      (runLoop env (ract.getD (fun _ => none)) ns nr 0 s₀ RunAcc.init).acc.std_vels
        = recs.map (fun r => npStdSq r.vel) ∧
      ∀ r ∈ recs,
        r.vel.length = ns ∧
        (∀ m, r.ret_list.length ≤ m → m < ns → r.vel[m]? = some (some 0)) := by
  obtain ⟨recs, g0, -, g2, -, g4, g5, g6, -, -, -, g10, -, -⟩ :=
    runLoop_spec env (ract.getD (fun _ => none)) ns nr 0 s₀ RunAcc.init
  simp only [RunAcc.init, List.nil_append] at g2 g4 g5 g6
  refine ⟨_, recs, by rw [run_ok_no_convert env s₀ nr ns ract ott fs h], g0,
    ?_, ?_, by simpa [RunAcc.init] using g5, by simpa [RunAcc.init] using g6, ?_⟩
  · simp [infoOf, RunAcc.init, g2]
  · simp [infoOf, RunAcc.init, g4]
  · intro r hr
    obtain ⟨⟨hvl, -, -, hpad, -, -, -⟩, -⟩ := g10 r hr
    exact ⟨hvl, hpad⟩

/-- Witness for C9 at a concrete environment whose runs all terminate
early (after one of the three requested steps), so each velocity entry
genuinely carries padding. -/
theorem C9_velocity_padding_witness :
    1 ≤ 2 ∧
    ∃ (info : InfoDict) (recs : List Rec),
      (Experiment.run envD () 2 3 none false false []).res = Except.ok info ∧
      recs.length = 2 ∧
      info.velocities = recs.map (fun r => r.vel) ∧
      info.per_step_returns = recs.map (fun r => r.ret_list) ∧
      (runLoop envD ((none : Option (Unit → Option Unit)).getD (fun _ => none))
          3 2 0 () RunAcc.init).acc.mean_vels = recs.map (fun r => npMeanO r.vel) ∧
      (runLoop envD ((none : Option (Unit → Option Unit)).getD (fun _ => none))
          3 2 0 () RunAcc.init).acc.std_vels = recs.map (fun r => npStdSq r.vel) ∧
      ∀ r ∈ recs,
        r.vel.length = 3 ∧
        (∀ m, r.ret_list.length ≤ m → m < 3 → r.vel[m]? = some (some 0)) :=
  ⟨by omega, C9_velocity_padding envD () 2 3 none false [] (by omega)⟩

/-- The final accumulator state of the per-run loop of `Experiment.run`,
as a function of the driver's arguments (shorthand for statements). -/
def runAccOf (env : Env σ Obs Act) (ract : Option (Obs → Option Act))
    (ns nr : Nat) (s₀ : σ) : RunAcc :=
  (runLoop env (ract.getD (fun _ => none)) ns nr 0 s₀ RunAcc.init).acc

/-- Formalisation of claim C1's own wording, for comparison with the
code's `throughputOf`: "computes throughput as outflow/inflow per run
when the recorded inflow is strictly positive across all runs completed
so far, and otherwise reports throughput 0 for every run so far". -/
def throughputSpecClaim (outflows inflows : List ℚ) : List ℚ :=
  if ∀ x ∈ inflows, 0 < x then
    List.zipWith (fun a b => a / b) outflows inflows
  else
    List.replicate inflows.length 0

/-- A concrete environment whose inflow rate is the strictly positive
but sub-threshold value `1e-6` and whose outflow rate is `1`. -/
def envC1 : Env Unit Unit Unit :=
  { sim_params := { emission_path := none }
    network := { name := ("net") }
    reset := fun s => (s, ())
    step := fun s _ => { s := s, obs := (), reward := 0, done := false }
    get_ids := fun _ => []
    get_speed := fun _ _ => 0
    get_outflow_rate := fun _ _ => 1
    get_inflow_rate := fun _ _ => 1/1000000 }

/-- Counterexample to claim C1 as stated: one run over `envC1` records
the single inflow `1e-6`, which is strictly positive, so the claim
predicts throughput `[outflow/inflow] = [1000000]` and an `avg_tpt` of
`1000000`; the code instead takes the `> 1e-5` threshold branch and
reports `avg_tpt = 0`. -/
theorem C1_counterexample :
    (Experiment.run envC1 () 1 1 none false true []).res =
      Except.ok ⟨[0], [[none]], [some 0], [[0]], some 1, none, some 0⟩ ∧
    (runAccOf envC1 none 1 1 ()).outflows = [1] ∧
    (runAccOf envC1 none 1 1 ()).inflows = [1/1000000] ∧
    ((0:ℚ) < 1/1000000) ∧
    throughputSpecClaim [1] [(1:ℚ)/1000000] = [1000000] ∧
    round2 (npMean (throughputSpecClaim [1] [(1:ℚ)/1000000])) = some 1000000 ∧
    (0:ℚ) ≠ 1000000 := by
  refine ⟨?_, ?_, ?_, by norm_num, ?_, ?_, by norm_num⟩
  · norm_num [Experiment.run, runLoop, singleRun, stepLoop, RunAcc.init, npMean, npMeanO,
      npStdSq, stripNaN, throughputOf, round2, nearestEvenInt, envC1, List.forall_mem_cons]
    rw [if_neg (by simp)]
  · norm_num [runAccOf, runLoop, singleRun, stepLoop, RunAcc.init, envC1]
  · norm_num [runAccOf, runLoop, singleRun, stepLoop, RunAcc.init, envC1]
  · norm_num [throughputSpecClaim, List.forall_mem_cons]
  · norm_num [throughputSpecClaim, List.forall_mem_cons, round2, npMean, nearestEvenInt]

/-- Claim C1, amended: after each run the driver computes throughput as
outflow/inflow per run when the recorded inflow *exceeds the threshold
`1e-5`* across all runs completed so far (not merely "strictly
positive"), and otherwise reports throughput 0 for every run so far (the
all-or-nothing fallback); the reported `avg_tpt` is the mean of the
throughput list as computed after the final run, *rounded to two
decimals*. -/
theorem C1_throughput_all_or_nothing (env : Env σ Obs Act) (s₀ : σ) (nr ns : Nat)
    (ract : Option (Obs → Option Act)) (ott : Bool) (fs : FS) (h : 1 ≤ nr) :
    ∃ info : InfoDict,
      (Experiment.run env s₀ nr ns ract false ott fs).res = Except.ok info ∧
      info.avg_tpt = round2 (npMean (throughputOf (runAccOf env ract ns nr s₀).outflows
        (runAccOf env ract ns nr s₀).inflows)) ∧
      (runAccOf env ract ns nr s₀).outflows.length = nr ∧
      (runAccOf env ract ns nr s₀).inflows.length = nr ∧
      ((∀ x ∈ (runAccOf env ract ns nr s₀).inflows, (1 : ℚ)/100000 < x) →
        throughputOf (runAccOf env ract ns nr s₀).outflows (runAccOf env ract ns nr s₀).inflows
          = List.zipWith (fun a b => a / b) (runAccOf env ract ns nr s₀).outflows
              (runAccOf env ract ns nr s₀).inflows) ∧
      ((∃ x ∈ (runAccOf env ract ns nr s₀).inflows, x ≤ (1 : ℚ)/100000) →
        throughputOf (runAccOf env ract ns nr s₀).outflows (runAccOf env ract ns nr s₀).inflows
          = List.replicate nr 0) := by
  obtain ⟨recs, g0, -, -, -, -, -, -, g7, g8, -, -, -, -⟩ :=
    runLoop_spec env (ract.getD (fun _ => none)) ns nr 0 s₀ RunAcc.init
  simp only [RunAcc.init, List.nil_append] at g7 g8
  refine ⟨_, by rw [run_ok_no_convert env s₀ nr ns ract ott fs h], ?_, ?_, ?_, ?_, ?_⟩
  · simp [infoOf, runAccOf]
  · simp [runAccOf, g7, RunAcc.init, g0]
  · simp [runAccOf, g8, RunAcc.init, g0]
  · intro hall
    simp only [throughputOf]
    rw [if_pos hall]
  · rintro ⟨x, hx, hle⟩
    simp only [throughputOf]
    rw [if_neg (by intro hall; exact absurd (hall x hx) (by simpa using hle))]
    rw [show (runAccOf env ract ns nr s₀).inflows.length = nr
      by simp [runAccOf, g8, RunAcc.init, g0]]

/-- Witness for the amended claim C1 at the concrete environment
`envC1`, whose single recorded inflow `1e-6` is at most the threshold,
so the fallback branch applies. -/
theorem C1_throughput_all_or_nothing_witness :
    1 ≤ 1 ∧
    ∃ info : InfoDict,
      (Experiment.run envC1 () 1 1 none false true []).res = Except.ok info ∧
      info.avg_tpt = round2 (npMean (throughputOf (runAccOf envC1 none 1 1 ()).outflows
        (runAccOf envC1 none 1 1 ()).inflows)) ∧
      (runAccOf envC1 none 1 1 ()).outflows.length = 1 ∧
      (runAccOf envC1 none 1 1 ()).inflows.length = 1 ∧
      ((∀ x ∈ (runAccOf envC1 none 1 1 ()).inflows, (1 : ℚ)/100000 < x) →
        throughputOf (runAccOf envC1 none 1 1 ()).outflows (runAccOf envC1 none 1 1 ()).inflows
          = List.zipWith (fun a b => a / b) (runAccOf envC1 none 1 1 ()).outflows
              (runAccOf envC1 none 1 1 ()).inflows) ∧
      ((∃ x ∈ (runAccOf envC1 none 1 1 ()).inflows, x ≤ (1 : ℚ)/100000) →
        throughputOf (runAccOf envC1 none 1 1 ()).outflows (runAccOf envC1 none 1 1 ()).inflows
          = List.replicate 1 0) :=
  ⟨by omega, C1_throughput_all_or_nothing envC1 () 1 1 none true [] (by omega)⟩

/-- Counterexample to claim C3 as stated: with an emission path
configured but no emission file on disk, the conversion fails and
`Experiment.run` propagates the error — the result is the error, not an
`Except.ok` carrying the collected metrics, so the metrics are *not*
delivered to the caller. -/
theorem C3_counterexample :
    (Experiment.run envW () 1 1 none true true []).res
      = Except.error RunError.emissionToCsvError := by
  rw [run_convert_fail envW () 1 1 none true [] ("data") (by omega) rfl rfl]

/-- Claim C3, amended: if the emission-file conversion fails after all
runs complete, `Experiment.run` fails with the conversion error (the
spec's `EmissionConversionError`) and leaves the file system untouched;
the metrics collected from the completed runs are unaffected by the
conversion attempt — the identical call with `convert_to_csv = False`
returns exactly those metrics, whatever the file system contains — but
they are *not* delivered to the caller of the failing call: the
exception propagates instead of the return value. -/
theorem C3_conversion_failure_metrics (env : Env σ Obs Act) (s₀ : σ) (nr ns : Nat)
    (ract : Option (Obs → Option Act)) (ott : Bool) (fs₀ : FS) (d : String)
    (h : 1 ≤ nr) (hp : env.sim_params.emission_path = some d)
    (hc : emission_to_csv fs₀ (d ++ "/" ++ env.network.name ++ "-emission.xml")
      = Except.error ()) :
    (Experiment.run env s₀ nr ns ract true ott fs₀).res
      = Except.error RunError.emissionToCsvError ∧
    (Experiment.run env s₀ nr ns ract true ott fs₀).fs = fs₀ ∧
    (∀ fs' : FS, (Experiment.run env s₀ nr ns ract false ott fs').res
      = Except.ok (infoOf (runAccOf env ract ns nr s₀))) ∧
    (infoOf (runAccOf env ract ns nr s₀)).returns.length = nr := by
  obtain ⟨recs, g0, g1, -, -, -, -, -, -, -, -, -, -, -⟩ :=
    runLoop_spec env (ract.getD (fun _ => none)) ns nr 0 s₀ RunAcc.init
  refine ⟨?_, ?_, ?_, ?_⟩
  · rw [run_convert_fail env s₀ nr ns ract ott fs₀ d h hp hc]
  · rw [run_convert_fail env s₀ nr ns ract ott fs₀ d h hp hc]
  · intro fs'
    rw [run_ok_no_convert env s₀ nr ns ract ott fs' h]
    rfl
  · simp only [RunAcc.init, List.nil_append] at g1
    simp [infoOf, runAccOf, RunAcc.init, g1, g0]

/-- Witness for the amended claim C3 at a concrete environment with an
empty file system (so the conversion fails for want of the emission
file). -/
theorem C3_conversion_failure_metrics_witness :
    1 ≤ 1 ∧ envW.sim_params.emission_path = some ("data") ∧
    emission_to_csv [] ("data" ++ "/" ++ envW.network.name ++ "-emission.xml")
      = Except.error () ∧
    ((Experiment.run envW () 1 1 none true true []).res
      = Except.error RunError.emissionToCsvError ∧
    (Experiment.run envW () 1 1 none true true []).fs = [] ∧
    (∀ fs' : FS, (Experiment.run envW () 1 1 none false true fs').res
      = Except.ok (infoOf (runAccOf envW none 1 1 ()))) ∧
    (infoOf (runAccOf envW none 1 1 ())).returns.length = 1) :=
  ⟨by omega, rfl, rfl,
    C3_conversion_failure_metrics envW () 1 1 none true [] ("data") (by omega) rfl rfl⟩

/-- Claim C6: when `Experiment.run` is called with `convert_to_csv` true
and an emission path, and a well-formed emission file sits at the
conventional location `<emission_path>/<network-name>-emission.xml`, the
driver returns the metrics, first calls `terminate()`, then (after the
settling sleep) converts the emission file and deletes the XML source —
the log ends with exactly that sequence — so that afterwards no file at
the `.xml` path remains on the disk while the tabular artifact does. -/
theorem C6_conversion_lifecycle (env : Env σ Obs Act) (s₀ : σ) (nr ns : Nat)
    (ract : Option (Obs → Option Act)) (ott : Bool) (fs₀ : FS) (d : String)
    (h : 1 ≤ nr) (hp : env.sim_params.emission_path = some d)
    (hx : fs₀.find? (fun f => f.path == (d ++ "/" ++ env.network.name ++ "-emission.xml"))
      = some ⟨d ++ "/" ++ env.network.name ++ "-emission.xml", true⟩) :
    (∃ info, (Experiment.run env s₀ nr ns ract true ott fs₀).res = Except.ok info) ∧
    (∀ fl ∈ (Experiment.run env s₀ nr ns ract true ott fs₀).fs,
      fl.path ≠ d ++ "/" ++ env.network.name ++ "-emission.xml") ∧
    ((⟨(d ++ "/" ++ env.network.name ++ "-emission.xml") ++ ".csv", true⟩ : FSFile)
      ∈ (Experiment.run env s₀ nr ns ract true ott fs₀).fs) ∧
    (∃ L, (Experiment.run env s₀ nr ns ract true ott fs₀).log
      = L ++ [Ev.terminate, Ev.sleep,
          Ev.convert (d ++ "/" ++ env.network.name ++ "-emission.xml"),
          Ev.remove (d ++ "/" ++ env.network.name ++ "-emission.xml")]) := by
  have hcsv : emission_to_csv fs₀ (d ++ "/" ++ env.network.name ++ "-emission.xml")
      = Except.ok (fs₀ ++
          [(⟨(d ++ "/" ++ env.network.name ++ "-emission.xml") ++ ".csv", true⟩ : FSFile)]) := by
    simp [emission_to_csv, hx]
  have hmem : (⟨d ++ "/" ++ env.network.name ++ "-emission.xml", true⟩ : FSFile) ∈ fs₀ :=
    List.mem_of_find?_eq_some hx
  have hrm : osRemove (fs₀ ++
        [(⟨(d ++ "/" ++ env.network.name ++ "-emission.xml") ++ ".csv", true⟩ : FSFile)])
        (d ++ "/" ++ env.network.name ++ "-emission.xml")
      = Except.ok ((fs₀ ++
          [(⟨(d ++ "/" ++ env.network.name ++ "-emission.xml") ++ ".csv", true⟩ : FSFile)]).filter
            (fun f => !(f.path == (d ++ "/" ++ env.network.name ++ "-emission.xml")))) := by
    have hany : (fs₀ ++
        [(⟨(d ++ "/" ++ env.network.name ++ "-emission.xml") ++ ".csv", true⟩ : FSFile)]).any
          (fun f => f.path == (d ++ "/" ++ env.network.name ++ "-emission.xml")) = true := by
      rw [List.any_eq_true]
      exact ⟨⟨d ++ "/" ++ env.network.name ++ "-emission.xml", true⟩,
        List.mem_append_left _ hmem, by simp⟩
    simp only [osRemove, hany]
    simp
  have hne : (d ++ "/" ++ env.network.name ++ "-emission.xml") ++ ".csv"
      ≠ d ++ "/" ++ env.network.name ++ "-emission.xml" := by
    intro he
    have hlen := congrArg String.length he
    rw [String.length_append] at hlen
    have h4 : (".csv" : String).length = 4 := by decide
    omega
  rw [run_convert_ok env s₀ nr ns ract ott fs₀ d _ _ h hp hcsv hrm]
  refine ⟨⟨_, rfl⟩, ?_, ?_, ⟨_, rfl⟩⟩
  · intro fl hfl
    have := (List.mem_filter.mp hfl).2
    simpa using this
  · refine List.mem_filter.mpr ⟨List.mem_append_right _ (List.mem_singleton.mpr rfl), ?_⟩
    simpa using hne

/-- Witness for C6: a concrete run over `envW` with the emission file
present on disk. -/
theorem C6_conversion_lifecycle_witness :
    1 ≤ 1 ∧ envW.sim_params.emission_path = some ("data") ∧
    ([(⟨"data/net-emission.xml", true⟩ : FSFile)].find?
      (fun f => f.path == ("data" ++ "/" ++ envW.network.name ++ "-emission.xml"))
      = some ⟨"data" ++ "/" ++ envW.network.name ++ "-emission.xml", true⟩) ∧
    ((∃ info, (Experiment.run envW () 1 1 none true true
        [⟨"data/net-emission.xml", true⟩]).res = Except.ok info) ∧
    (∀ fl ∈ (Experiment.run envW () 1 1 none true true
        [⟨"data/net-emission.xml", true⟩]).fs,
      fl.path ≠ "data" ++ "/" ++ envW.network.name ++ "-emission.xml") ∧
    ((⟨("data" ++ "/" ++ envW.network.name ++ "-emission.xml") ++ ".csv", true⟩ : FSFile)
      ∈ (Experiment.run envW () 1 1 none true true
          [⟨"data/net-emission.xml", true⟩]).fs) ∧
    (∃ L, (Experiment.run envW () 1 1 none true true
        [⟨"data/net-emission.xml", true⟩]).log
      = L ++ [Ev.terminate, Ev.sleep,
          Ev.convert ("data" ++ "/" ++ envW.network.name ++ "-emission.xml"),
          Ev.remove ("data" ++ "/" ++ envW.network.name ++ "-emission.xml")])) :=
  ⟨by omega, rfl, rfl,
    C6_conversion_lifecycle envW () 1 1 none true
      [⟨"data/net-emission.xml", true⟩] ("data") (by omega) rfl rfl⟩

/-- The `tlLogic` loop of `_import_tls_from_net` appends, for each
element whose four attributes are present, one entry built from exactly
those attributes and the `phase` children's attribute dictionaries. -/
theorem addTlsLoop_spec :
    ∀ (l : List XmlElem) (tls : TrafficLights),
    (∀ tl ∈ l, (tl.attrib.lookup ("id")).isSome ∧ (tl.attrib.lookup ("type")).isSome ∧
      (tl.attrib.lookup ("programID")).isSome ∧ (tl.attrib.lookup ("offset")).isSome) →
    addTlsLoop tls l = Except.ok ⟨tls.entries ++ l.map (fun tl =>
      { id := (tl.attrib.lookup ("id")).getD ("")
        type := (tl.attrib.lookup ("type")).getD ("")
        programID := (tl.attrib.lookup ("programID")).getD ("")
        offset := (tl.attrib.lookup ("offset")).getD ("")
        phases := (tl.findall ("phase")).map (fun ph => ph.attrib) })⟩ := by
  intro l
  induction l with
  | nil => intro tls _; simp [addTlsLoop]
  | cons tl rest ih =>
    intro tls h
    obtain ⟨h1, h2, h3, h4⟩ := h tl (List.mem_cons_self tl rest)
    obtain ⟨v1, hv1⟩ := Option.isSome_iff_exists.mp h1
    obtain ⟨v2, hv2⟩ := Option.isSome_iff_exists.mp h2
    obtain ⟨v3, hv3⟩ := Option.isSome_iff_exists.mp h3
    obtain ⟨v4, hv4⟩ := Option.isSome_iff_exists.mp h4
    have ihr := ih (tls.add v1 v2 v3 v4 ((tl.findall ("phase")).map (fun ph => ph.attrib)))
      (fun tl' htl' => h tl' (List.mem_cons_of_mem _ htl'))
    simp only [addTlsLoop, XmlElem.getAttr, hv1, hv2, hv3, hv4, bind, Except.bind]
    rw [ihr]
    simp [TrafficLights.add, hv1, hv2, hv3, hv4]

/-- Claim C8: for every `tlLogic` element of the parsed network
configuration file (each carrying its four attributes), the importer
produces exactly one traffic-light entry per element, structured with
exactly the fields `id`, `type`, `programID`, `offset` and `phases`
(the `TLEntry` record), where `phases` is the list of attribute
dictionaries of the element's `phase` children, in document order. -/
theorem C8_tls_import_structure (root : XmlElem)
    (h : ∀ tl ∈ root.findall ("tlLogic"),
      (tl.attrib.lookup ("id")).isSome ∧ (tl.attrib.lookup ("type")).isSome ∧
      (tl.attrib.lookup ("programID")).isSome ∧ (tl.attrib.lookup ("offset")).isSome) :
    import_tls_from_net root = Except.ok ⟨(root.findall ("tlLogic")).map (fun tl =>
      { id := (tl.attrib.lookup ("id")).getD ("")
        type := (tl.attrib.lookup ("type")).getD ("")
        programID := (tl.attrib.lookup ("programID")).getD ("")
        offset := (tl.attrib.lookup ("offset")).getD ("")
        phases := (tl.findall ("phase")).map (fun ph => ph.attrib) })⟩ := by
  have hmain := addTlsLoop_spec (root.findall ("tlLogic")) ⟨[]⟩ h
  simpa [import_tls_from_net] using hmain

/-- A concrete parsed configuration file with two `tlLogic` elements
(one with two `phase` children) and an unrelated `edge` element. -/
def xmlC8 : XmlElem :=
  XmlElem.mk ("net") [] [
    XmlElem.mk ("tlLogic")
      [("id", "n1"), ("type", "static"), ("programID", "1"), ("offset", "0")]
      [XmlElem.mk ("phase") [("duration", "30"), ("state", "Gr")] [],
       XmlElem.mk ("phase") [("duration", "5"), ("state", "rG")] []],
    XmlElem.mk ("edge") [("id", "e1")] [],
    XmlElem.mk ("tlLogic")
      [("id", "n2"), ("type", "actuated"), ("programID", "2"), ("offset", "3")] []]

/-- Witness for C8 at the concrete tree `xmlC8`. -/
theorem C8_tls_import_structure_witness :
    (∀ tl ∈ xmlC8.findall ("tlLogic"),
      (tl.attrib.lookup ("id")).isSome ∧ (tl.attrib.lookup ("type")).isSome ∧
      (tl.attrib.lookup ("programID")).isSome ∧ (tl.attrib.lookup ("offset")).isSome) ∧
    import_tls_from_net xmlC8 = Except.ok ⟨(xmlC8.findall ("tlLogic")).map (fun tl =>
      { id := (tl.attrib.lookup ("id")).getD ("")
        type := (tl.attrib.lookup ("type")).getD ("")
        programID := (tl.attrib.lookup ("programID")).getD ("")
        offset := (tl.attrib.lookup ("offset")).getD ("")
        phases := (tl.findall ("phase")).map (fun ph => ph.attrib) })⟩ :=
  ⟨by decide, C8_tls_import_structure xmlC8 (by decide)⟩
